import Mathlib

/-
Verification of the Agentic-Council debate orchestration engine.

Shallow embedding of the core Python modules:
  - src/council/llm/base_client.py        (ChatMessage)
  - src/council/debate/message.py         (DebateStage, DebateMessage)
  - src/council/debate/debate_topic.py    (DebateTopic)
  - src/council/agents/base_agent.py      (BaseAgent: _with_system_message, respond)
  - src/council/debate/debate_protocol.py (RoundConfig, DebateProtocol, BasicDebateProtocol)
  - src/council/debate/consensus_strategies.py
        (ConsensusResult, PolicyLeadConsensusStrategy)
  - src/council/debate/orchestrator.py
        (DebateTranscript, DebateResult, DebateOrchestrator.run_debate,
         _build_conversation_for_agent)

The LLM completion backend is modelled as a pure function
`List ChatMessage -> String` carried by each agent; every invocation of it is
counted, so "number of backend calls" is an observable of the embedding.
-/

namespace Council

/-- A chat message as sent to the completion backend
(src/council/llm/base_client.py). -/
structure ChatMessage where
  role : String
  content : String
deriving DecidableEq, Repr

/-- Debate stage tag (src/council/debate/message.py, class DebateStage). -/
inductive DebateStage where
  | opening
  | rebuttal
  | consensus
deriving DecidableEq, Repr

/-- The string value of a stage, as in the Python `str`-valued enum. -/
def DebateStage.value : DebateStage → String
  | .opening => "opening"
  | .rebuttal => "rebuttal"
  | .consensus => "consensus"

/-- A single transcript entry (src/council/debate/message.py, DebateMessage). -/
structure DebateMessage where
  speaker_id : String
  speaker_name : String
  role : String
  content : String
  stage : DebateStage
  round_index : Nat
deriving DecidableEq, Repr

/-- A debate topic (src/council/debate/debate_topic.py, DebateTopic). -/
structure DebateTopic where
  id : String
  title : String
  description : String
  constraints : Option String := none
deriving DecidableEq, Repr

/-- DebateTopic.as_user_prompt.  The Python guard `if self.constraints:` is
falsy both for None and for the empty string. -/
def DebateTopic.asUserPrompt (t : DebateTopic) : String :=
  let base := ["Debate topic: " ++ t.title, "", "Description:\n" ++ t.description]
  let parts :=
    match t.constraints with
    | some c => if c = "" then base else base ++ ["", "Constraints / scope:\n" ++ c]
    | none => base
  String.intercalate "\n" parts

/-- An agent (src/council/agents/base_agent.py).  `llm` is the completion
backend boundary: the text returned for a message list.  The orchestrator
never passes a per-call model override, so model-alias plumbing is elided. -/
structure Agent where
  name : String
  roleId : String
  systemPrompt : String
  llm : List ChatMessage → String

/-- BaseAgent._with_system_message: if the conversation already starts with a
system message whose content equals the agent's system prompt, return it
unchanged; otherwise prepend the system message. -/
def Agent.withSystemMessage (a : Agent) (conversation : List ChatMessage) :
    List ChatMessage :=
  match conversation with
  | first :: rest =>
      if first.role = "system" ∧ first.content = a.systemPrompt then
        first :: rest
      else
        ⟨"system", a.systemPrompt⟩ :: first :: rest
  | [] => [⟨"system", a.systemPrompt⟩]

/-- BaseAgent.respond: inject the system message, then call the backend. -/
def Agent.respond (a : Agent) (conversation : List ChatMessage) : String :=
  a.llm (a.withSystemMessage conversation)

/-- Round configuration (src/council/debate/debate_protocol.py, RoundConfig).
Python ints may be negative; `range(n)` on a negative count runs zero times,
mirrored below with `Int.toNat`. -/
structure RoundConfig where
  num_rebuttal_rounds : Int := 1
deriving DecidableEq, Repr

/-- A debate protocol (src/council/debate/debate_protocol.py): speaking orders
for the two stages and the number of rebuttal rounds. -/
structure DebateProtocol where
  openingOrder : List Agent → List Agent
  rebuttalOrder : List Agent → List Agent
  numRebuttalRounds : Int

/-- BasicDebateProtocol: each stage speaks in council order; the round count
comes from its RoundConfig. -/
def BasicDebateProtocol (config : RoundConfig) : DebateProtocol :=
  { openingOrder := fun council => council
    rebuttalOrder := fun council => council
    numRebuttalRounds := config.num_rebuttal_rounds }

/-- Opening-stage task instructions from
DebateOrchestrator._build_conversation_for_agent. -/
def openingInstructions (agentName : String) : String :=
  "You are " ++ agentName ++
  " participating in the opening round of the council debate.\n\nTask:\n" ++
  "- Present your analysis of the topic from your expertise.\n" ++
  "- Anticipate possible objections from other specialists.\n" ++
  "- Be explicit about sources, periods, and uncertainties.\n" ++
  "- You are NOT trying to be \"balanced\" for its own sake; you are trying\n" ++
  "  to be accurate, rigorous, and honest about trade-offs.\n" ++
  "- Keep every point tightly linked to the stated topic; avoid tangents or\n" ++
  "  virtue-signaling and let evidence drive your stance."

/-- Rebuttal-stage task instructions from
DebateOrchestrator._build_conversation_for_agent. -/
def rebuttalInstructions (agentName : String) : String :=
  "You are " ++ agentName ++
  " participating in a rebuttal round of the council debate.\n\nTask:\n" ++
  "- Engage with previous statements from the other experts.\n" ++
  "- Point out where you agree and where you disagree, and WHY.\n" ++
  "- Bring in additional evidence or reasoning.\n" ++
  "- If you revise your earlier position, say so explicitly.\n" ++
  "- Critique arguments based on evidentiary strength and topic relevance,\n" ++
  "  and call out any detours into politeness or unrelated issues."

/-- Stage dispatch of the orchestrator's `if stage == DebateStage.OPENING`
for the instruction block (the else-branch covers every non-opening stage). -/
def stageInstructions (stage : DebateStage) (agentName : String) : String :=
  if stage = DebateStage.opening then openingInstructions agentName
  else rebuttalInstructions agentName

/-- The single instruction message of a turn: topic block, stage name in
upper case, stage instructions, and — for a rebuttal with a known round —
the 1-indexed round number. -/
def debateIntro (topic : DebateTopic) (agent : Agent) (stage : DebateStage)
    (rebuttalRound : Option Nat) : String :=
  let intro := topic.asUserPrompt ++ "\n\nStage: " ++ stage.value.toUpper ++
    "\n\n" ++ stageInstructions stage agent.name
  match rebuttalRound with
  | some r =>
      if stage = DebateStage.rebuttal then
        intro ++ "\n\nRebuttal round: " ++ toString (r + 1)
      else intro
  | none => intro

/-- Re-labelling of a prior transcript entry for rebuttal context: speaker
label plus content, with chat role "assistant" regardless of the original
speaker (orchestrator.py, lines 212-215). -/
def relabelForContext (msg : DebateMessage) : ChatMessage :=
  ⟨"assistant",
    msg.speaker_name ++ " (" ++ msg.stage.value ++ ", #" ++
      toString msg.round_index ++ "):\n" ++ msg.content⟩

/-- DebateOrchestrator._build_conversation_for_agent: one user instruction
message; for the rebuttal stage, followed by every prior transcript
message re-labelled as assistant context. -/
def buildConversationForAgent (topic : DebateTopic)
    (transcript : List DebateMessage) (agent : Agent) (stage : DebateStage)
    (rebuttalRound : Option Nat) : List ChatMessage :=
  let messages := [ChatMessage.mk "user" (debateIntro topic agent stage rebuttalRound)]
  if stage = DebateStage.rebuttal then
    messages ++ transcript.map relabelForContext
  else messages

/-- Result of applying a consensus strategy
(src/council/debate/consensus_strategies.py, ConsensusResult). -/
structure ConsensusResult where
  text : String
  notes : Option String := none
deriving DecidableEq, Repr

/-- The loop body of PolicyLeadConsensusStrategy._select_summarizer: first
agent whose role id is "policymaker_expert", if any. -/
def findPolicymaker : List Agent → Option Agent
  | [] => none
  | a :: rest =>
      if a.roleId = "policymaker_expert" then some a else findPolicymaker rest

/-- PolicyLeadConsensusStrategy._select_summarizer: first policymaker agent,
else `council[0]` (which in Python raises on an empty list, hence the
non-emptiness argument; the only caller guards on a non-empty council). -/
def selectSummarizer (council : List Agent) (h : council ≠ []) : Agent :=
  match findPolicymaker council with
  | some a => a
  | none => council.head h

/-- One formatted transcript block of
PolicyLeadConsensusStrategy._format_transcript:
header line, stripped content, a 40-dash rule, each newline-terminated. -/
def formatBlock (msg : DebateMessage) : String :=
  "[" ++ toString msg.round_index ++ " | " ++ msg.stage.value.toUpper ++
    " | " ++ msg.speaker_name ++ "]" ++ "\n" ++ msg.content.trim ++ "\n" ++
    "----------------------------------------" ++ "\n"

/-- The accumulation loop of _format_transcript, over the reversed
transcript: keep blocks while they fit within `maxChars`, stopping at the
first block that would exceed the budget. -/
def keptBlocksRev (maxChars : Nat) : List DebateMessage → Nat → List String
  | [], _ => []
  | msg :: rest, totalChars =>
      let block := formatBlock msg
      if totalChars + block.length > maxChars then []
      else block :: keptBlocksRev maxChars rest (totalChars + block.length)

/-- `kept_lines` after the final `reverse()`: blocks of the most recent
messages, back in chronological order. -/
def keptLines (transcript : List DebateMessage) (maxChars : Nat) : List String :=
  (keptBlocksRev maxChars transcript.reverse 0).reverse

/-- Python `"".join`. -/
def concatAll : List String → String
  | [] => ""
  | s :: rest => s ++ concatAll rest

/-- The note prepended when earlier transcript parts were dropped
(consensus_strategies.py, lines 97-101). -/
def omissionNote : String :=
  "\n[Earlier parts of the debate have been omitted from this " ++
  "transcript for brevity and token limits. Focus on the " ++
  "arguments you see here and be explicit about uncertainty.]\n\n"

/-- PolicyLeadConsensusStrategy._format_transcript: join the kept blocks and
prepend the omission note when some message was dropped. -/
def formatTranscript (transcript : List DebateMessage) (maxChars : Nat) : String :=
  if (keptLines transcript maxChars).length < transcript.length then
    omissionNote ++ concatAll (keptLines transcript maxChars)
  else concatAll (keptLines transcript maxChars)

/-- The synthesis prompt of PolicyLeadConsensusStrategy.generate_consensus.
The Python guard `topic.constraints or "None specified."` is falsy for both
None and the empty string. -/
def consensusInstructions (topic : DebateTopic) (transcriptText : String) : String :=
  let constraintsText :=
    match topic.constraints with
    | some c => if c = "" then "None specified." else c
    | none => "None specified."
  "You are now acting as the COUNCIL\x27S CONSENSUS DRAFTER.\n\n" ++
  "Debate topic:\n" ++ topic.title ++ "\n\n" ++
  "Description:\n" ++ topic.description ++ "\n\n" ++
  "Constraints:\n" ++ constraintsText ++ "\n\n" ++
  "Below is the full transcript of the council\x27s debate, including opening\n" ++
  "statements and rebuttals. Your task:\n\n" ++
  "1. Extract the factual points that are well-supported or broadly accepted.\n" ++
  "2. Identify key disagreements and why the experts differ.\n" ++
  "3. Propose a best-effort, evidence-grounded conclusion that:\n" ++
  "   - does not simply average opinions,\n" ++
  "   - states where the evidence strongly points,\n" ++
  "   - is clear about remaining uncertainty.\n" ++
  "4. Translate implications into concrete, realistic considerations for\n" ++
  "   contemporary Indian policy or public discourse where relevant.\n\n" ++
  "Rules:\n" ++
  "- Be explicit about reasoning.\n" ++
  "- Critique ideas, institutions, and policies. As the debate aims to reach " ++
  "objective truth, political correctness will harm the discuss over " ++
  "considering objective truths.\n\n" ++
  "Transcript:\n" ++ transcriptText ++ "\n\n" ++
  "Now write the COUNCIL CONSENSUS in the following structure:\n\n" ++
  "1. Core factual points\n" ++
  "2. Key disagreements\n" ++
  "3. Provisional conclusion\n" ++
  "4. Policy / practical implications (if any)"

/-- PolicyLeadConsensusStrategy.generate_consensus.  The second component
counts backend calls made by the strategy: zero for an empty council (the
sentinel path makes none), one otherwise (the summarizer's respond). -/
def generateConsensus (topic : DebateTopic) (transcript : List DebateMessage)
    (council : List Agent) : ConsensusResult × Nat :=
  match council with
  | [] =>
      (⟨"No council agents were available to form a consensus.",
        some "empty_council"⟩, 0)
  | c0 :: rest =>
      let summarizer := selectSummarizer (c0 :: rest) (List.cons_ne_nil c0 rest)
      let transcriptText := formatTranscript transcript 6000
      let instructions := consensusInstructions topic transcriptText
      let consensusText := summarizer.respond [⟨"user", instructions⟩]
      (⟨consensusText, some ("summarizer=" ++ summarizer.roleId)⟩, 1)

/-- A consensus strategy: topic, transcript and council to a result, paired
with the number of backend calls it performed. -/
def ConsensusStrategy :=
  DebateTopic → List DebateMessage → List Agent → ConsensusResult × Nat

/-- The default strategy object installed by the orchestrator constructor. -/
def policyLeadStrategy : ConsensusStrategy :=
  fun topic transcript council => generateConsensus topic transcript council

/-- Full record of a debate (orchestrator.py, DebateTranscript). -/
structure DebateTranscript where
  topic : DebateTopic
  messages : List DebateMessage

/-- Combined output of a debate run (orchestrator.py, DebateResult). -/
structure DebateResult where
  transcript : DebateTranscript
  consensus : Option ConsensusResult

/-- Internal state of a DebateOrchestrator: the protocol and the (optional)
consensus strategy field checked by run_debate. -/
structure DebateOrchestrator where
  protocol : DebateProtocol
  consensusStrategy : Option ConsensusStrategy

/-- DebateOrchestrator.__init__: `consensus_strategy or
PolicyLeadConsensusStrategy()` — a missing strategy is replaced by the
default Policy-Lead strategy, so the stored field is never None. -/
def DebateOrchestrator.init (protocol : DebateProtocol)
    (consensusStrategy : Option ConsensusStrategy) : DebateOrchestrator :=
  { protocol := protocol
    consensusStrategy := some (consensusStrategy.getD policyLeadStrategy) }

/-- DebateOrchestrator._run_agent_turn: build the conversation for one turn
and get the agent's response. -/
def runAgentTurn (topic : DebateTopic) (transcript : List DebateMessage)
    (agent : Agent) (stage : DebateStage) (rebuttalRound : Option Nat) : String :=
  agent.respond (buildConversationForAgent topic transcript agent stage rebuttalRound)

/-- One stage's for-loop of run_debate: each agent takes a turn against the
accumulated transcript; the new message carries the next global turn index.
State: (transcript, next round_index, backend calls so far). -/
def runStageTurns (topic : DebateTopic) (stage : DebateStage)
    (rebuttalRound : Option Nat) :
    List Agent → List DebateMessage → Nat → Nat →
    List DebateMessage × Nat × Nat
  | [], transcript, roundIndex, calls => (transcript, roundIndex, calls)
  | agent :: restAgents, transcript, roundIndex, calls =>
      let content := runAgentTurn topic transcript agent stage rebuttalRound
      runStageTurns topic stage rebuttalRound restAgents
        (transcript ++
          [{ speaker_id := agent.roleId
             speaker_name := agent.name
             role := "assistant"
             content := content
             stage := stage
             round_index := roundIndex }])
        (roundIndex + 1) (calls + 1)

/-- The rebuttal-round loop `for r in range(N)` of run_debate: `n` rounds
remain and `r` is the current 0-indexed round number. -/
def runRebuttalRounds (topic : DebateTopic) (protocol : DebateProtocol)
    (council : List Agent) :
    Nat → Nat → List DebateMessage → Nat → Nat →
    List DebateMessage × Nat × Nat
  | 0, _, transcript, roundIndex, calls => (transcript, roundIndex, calls)
  | n + 1, r, transcript, roundIndex, calls =>
      let s := runStageTurns topic DebateStage.rebuttal (some r)
        (protocol.rebuttalOrder council) transcript roundIndex calls
      runRebuttalRounds topic protocol council n (r + 1) s.1 s.2.1 s.2.2

/-- DebateOrchestrator.run_debate: opening statements, rebuttal rounds, then
the consensus stage (when a strategy is stored).  The second component is
the total number of backend calls performed during the run. -/
def runDebate (o : DebateOrchestrator) (topic : DebateTopic)
    (council : List Agent) : DebateResult × Nat :=
  let afterOpening := runStageTurns topic DebateStage.opening none
    (o.protocol.openingOrder council) [] 0 0
  let afterRebuttals := runRebuttalRounds topic o.protocol council
    o.protocol.numRebuttalRounds.toNat 0 afterOpening.1 afterOpening.2.1
    afterOpening.2.2
  match o.consensusStrategy with
  | none =>
      ({ transcript := ⟨topic, afterRebuttals.1⟩, consensus := none },
        afterRebuttals.2.2)
  | some strat =>
      let c := strat topic afterRebuttals.1 council
      ({ transcript := ⟨topic, afterRebuttals.1⟩, consensus := some c.1 },
        afterRebuttals.2.2 + c.2)

/-! Concrete fixtures used by witnesses and counterexamples. -/

/-- The end-to-end scenario topic `{id:"t1", title:"X", description:"Y"}`. -/
def topic0 : DebateTopic := { id := "t1", title := "X", description := "Y" }

/-- A historian agent with a stub backend. -/
def agentA : Agent :=
  { name := "A", roleId := "indian_historian", systemPrompt := "PA",
    llm := fun _ => "ra" }

/-- A policymaker agent with a stub backend. -/
def agentPM : Agent :=
  { name := "P", roleId := "policymaker_expert", systemPrompt := "PP",
    llm := fun _ => "rp" }

/-- A first transcript entry. -/
def msg0 : DebateMessage :=
  { speaker_id := "indian_historian", speaker_name := "A", role := "assistant",
    content := "c0", stage := DebateStage.opening, round_index := 0 }

/-- A second transcript entry. -/
def msg1 : DebateMessage :=
  { speaker_id := "policymaker_expert", speaker_name := "P", role := "assistant",
    content := "c1", stage := DebateStage.opening, round_index := 1 }

/-! Behaviour of the per-stage turn loop. -/

/-- One stage over `agents` starting at turn index `i` appends messages whose
turn indices are exactly `i, i+1, ...`; the index and call counters each
advance by the number of agents. -/
theorem runStageTurns_spec (topic : DebateTopic) (stage : DebateStage)
    (rr : Option Nat) (agents : List Agent) :
    ∀ (t : List DebateMessage) (i c : Nat),
      ((runStageTurns topic stage rr agents t i c).1.map DebateMessage.round_index
          = t.map DebateMessage.round_index ++ List.range' i agents.length)
      ∧ (runStageTurns topic stage rr agents t i c).2.1 = i + agents.length
      ∧ (runStageTurns topic stage rr agents t i c).2.2 = c + agents.length := by
  induction agents with
  | nil => intro t i c; simp [runStageTurns]
  | cons agent rest ih =>
      intro t i c
      simp only [runStageTurns]
      obtain ⟨h1, h2, h3⟩ := ih
        (t ++ [{ speaker_id := agent.roleId, speaker_name := agent.name,
                 role := "assistant",
                 content := runAgentTurn topic t agent stage rr,
                 stage := stage, round_index := i }]) (i + 1) (c + 1)
      refine ⟨?_, by rw [h2]; simp; omega, by rw [h3]; simp; omega⟩
      rw [h1]
      simp [List.range'_succ]

/-- The rebuttal-round loop appends `n * |order|` messages with consecutive
turn indices, advancing the counters accordingly, for any starting round
number `r`. -/
theorem runRebuttalRounds_spec (topic : DebateTopic) (protocol : DebateProtocol)
    (council : List Agent) (n : Nat) :
    ∀ (r : Nat) (t : List DebateMessage) (i c : Nat),
      ((runRebuttalRounds topic protocol council n r t i c).1.map
            DebateMessage.round_index
          = t.map DebateMessage.round_index ++
            List.range' i (n * (protocol.rebuttalOrder council).length))
      ∧ (runRebuttalRounds topic protocol council n r t i c).2.1
          = i + n * (protocol.rebuttalOrder council).length
      ∧ (runRebuttalRounds topic protocol council n r t i c).2.2
          = c + n * (protocol.rebuttalOrder council).length := by
  induction n with
  | zero => intro r t i c; simp [runRebuttalRounds]
  | succ n ih =>
      intro r t i c
      simp only [runRebuttalRounds]
      obtain ⟨h1, h2, h3⟩ :=
        runStageTurns_spec topic DebateStage.rebuttal (some r)
          (protocol.rebuttalOrder council) t i c
      obtain ⟨g1, g2, g3⟩ := ih (r + 1)
        (runStageTurns topic DebateStage.rebuttal (some r)
          (protocol.rebuttalOrder council) t i c).1
        (runStageTurns topic DebateStage.rebuttal (some r)
          (protocol.rebuttalOrder council) t i c).2.1
        (runStageTurns topic DebateStage.rebuttal (some r)
          (protocol.rebuttalOrder council) t i c).2.2
      refine ⟨?_, by rw [g2, h2]; ring, by rw [g3, h3]; ring⟩
      rw [g1, h1, h2, List.append_assoc]
      have hr := List.range'_append i
        (protocol.rebuttalOrder council).length
        (n * (protocol.rebuttalOrder council).length) 1
      simp only [one_mul] at hr
      rw [hr]
      congr 1
      ring_nf

/-- run_debate's transcript consists exactly of the messages accumulated by
the opening and rebuttal loops; the consensus branch only wraps them. -/
theorem runDebate_messages (o : DebateOrchestrator) (topic : DebateTopic)
    (council : List Agent) :
    (runDebate o topic council).1.transcript.messages
      = (runRebuttalRounds topic o.protocol council
          o.protocol.numRebuttalRounds.toNat 0
          (runStageTurns topic DebateStage.opening none
            (o.protocol.openingOrder council) [] 0 0).1
          (runStageTurns topic DebateStage.opening none
            (o.protocol.openingOrder council) [] 0 0).2.1
          (runStageTurns topic DebateStage.opening none
            (o.protocol.openingOrder council) [] 0 0).2.2).1 := by
  cases h : o.consensusStrategy <;> simp [runDebate, h]

/-- The transcript's turn indices are `range' 0 total` where `total` counts
one turn per agent in the opening order plus one per agent in the rebuttal
order for each rebuttal round. -/
theorem runDebate_indices (o : DebateOrchestrator) (topic : DebateTopic)
    (council : List Agent) :
    (runDebate o topic council).1.transcript.messages.map
        DebateMessage.round_index
      = List.range' 0 ((o.protocol.openingOrder council).length +
          o.protocol.numRebuttalRounds.toNat *
            (o.protocol.rebuttalOrder council).length) := by
  rw [runDebate_messages]
  obtain ⟨h1, h2, h3⟩ := runStageTurns_spec topic DebateStage.opening none
    (o.protocol.openingOrder council) [] 0 0
  obtain ⟨g1, g2, g3⟩ := runRebuttalRounds_spec topic o.protocol council
    o.protocol.numRebuttalRounds.toNat 0
    (runStageTurns topic DebateStage.opening none
      (o.protocol.openingOrder council) [] 0 0).1
    (runStageTurns topic DebateStage.opening none
      (o.protocol.openingOrder council) [] 0 0).2.1
    (runStageTurns topic DebateStage.opening none
      (o.protocol.openingOrder council) [] 0 0).2.2
  rw [g1, h1, h2]
  simp only [List.map_nil, List.nil_append, Nat.zero_add]
  have hr := List.range'_append 0 (o.protocol.openingOrder council).length
    (o.protocol.numRebuttalRounds.toNat *
      (o.protocol.rebuttalOrder council).length) 1
  simp only [one_mul, Nat.zero_add] at hr
  rw [hr]
  congr 1
  ring

/-- The transcript's length is the same total. -/
theorem runDebate_length (o : DebateOrchestrator) (topic : DebateTopic)
    (council : List Agent) :
    (runDebate o topic council).1.transcript.messages.length
      = (o.protocol.openingOrder council).length +
          o.protocol.numRebuttalRounds.toNat *
            (o.protocol.rebuttalOrder council).length := by
  have h := congrArg List.length (runDebate_indices o topic council)
  simpa using h

/-! Claim theorems. -/

/-- C1: for a debate run with a council of K agents under a protocol whose
opening and rebuttal orders each contain the K council agents and which
reports R rebuttal rounds (R ≥ 0, as a non-negative integer), the transcript
holds exactly K + K*R messages; and the consensus stage appends no message —
the transcript is the same whether or not a consensus strategy is passed. -/
theorem run_debate_message_count (protocol : DebateProtocol)
    (s : Option ConsensusStrategy) (topic : DebateTopic) (council : List Agent)
    (K R : Nat)
    (hOpen : (protocol.openingOrder council).length = K)
    (hReb : (protocol.rebuttalOrder council).length = K)
    (hR : protocol.numRebuttalRounds = (R : Int)) :
    ((runDebate (DebateOrchestrator.init protocol s) topic council).1.transcript.messages.length
        = K + K * R)
    ∧ (runDebate ⟨protocol, some (s.getD policyLeadStrategy)⟩ topic council).1.transcript
        = (runDebate ⟨protocol, none⟩ topic council).1.transcript := by
  constructor
  · have h := runDebate_length (DebateOrchestrator.init protocol s) topic council
    simp only [DebateOrchestrator.init] at h ⊢
    rw [h, hOpen, hReb, hR]
    simp [Int.toNat_ofNat]
    ring
  · rfl

/-- C1 witness: one agent, one rebuttal round — 1 + 1*1 = 2 messages. -/
theorem run_debate_message_count_witness :
    (runDebate (DebateOrchestrator.init (BasicDebateProtocol ⟨1⟩) none) topic0
        [agentA]).1.transcript.messages.length = 1 + 1 * 1 :=
  (run_debate_message_count (BasicDebateProtocol ⟨1⟩) none topic0 [agentA]
    1 1 rfl rfl rfl).1

/-- C2: for every orchestrator, topic and council, the turn indices of the
transcript messages, in append order, are exactly 0, 1, 2, ... with no gaps
— the sequence `List.range` of the transcript's length — across the opening
stage and all rebuttal rounds. -/
theorem run_debate_turn_indices (o : DebateOrchestrator) (topic : DebateTopic)
    (council : List Agent) :
    (runDebate o topic council).1.transcript.messages.map
        DebateMessage.round_index
      = List.range (runDebate o topic council).1.transcript.messages.length := by
  rw [runDebate_indices, runDebate_length, List.range_eq_range']

/-- C3: the conversation built for an opening turn is exactly the single
topic-and-instructions user message, whatever the transcript holds; a
rebuttal turn's conversation is that instruction message followed by one
entry per prior transcript message, re-labelled
"speaker name (stage, #turn-index):\ncontent" with chat role "assistant"
regardless of the original speaker. -/
theorem build_conversation_stage_contexts (topic : DebateTopic)
    (transcript : List DebateMessage) (agent : Agent) (r : Nat) :
    (buildConversationForAgent topic transcript agent DebateStage.opening none
        = [⟨"user", debateIntro topic agent DebateStage.opening none⟩])
    ∧ (buildConversationForAgent topic transcript agent DebateStage.opening
        none).length = 1
    ∧ (buildConversationForAgent topic transcript agent DebateStage.rebuttal
          (some r)
        = ⟨"user", debateIntro topic agent DebateStage.rebuttal (some r)⟩ ::
            transcript.map relabelForContext)
    ∧ ∀ msg : DebateMessage, relabelForContext msg
        = ⟨"assistant",
            msg.speaker_name ++ " (" ++ msg.stage.value ++ ", #" ++
              toString msg.round_index ++ "):\n" ++ msg.content⟩ := by
  refine ⟨?_, ?_, ?_, fun msg => rfl⟩ <;> simp [buildConversationForAgent]

/-- C4 counterexample: the claimed bounded sliding window of the most recent
K entries (context of at most 1 + K messages) does not exist — with a
window size of K = 1 and two prior transcript messages, the only context
builder in the orchestrator still produces 3 entries, exceeding 1 + K. -/
theorem context_window_counterexample :
    ¬ (buildConversationForAgent topic0 [msg0, msg1] agentA
        DebateStage.rebuttal (some 0)).length ≤ 1 + 1 := by
  simp [buildConversationForAgent]

/-- C4 amended: the orchestrator's context builder implements only the
full-transcript policy — every rebuttal-stage conversation contains exactly
1 + (number of prior transcript messages) entries, with no configuration
parameter that bounds or truncates the included history.  (A character-budget
truncation exists only in the consensus strategy's transcript rendering.) -/
theorem rebuttal_context_always_full_transcript (topic : DebateTopic)
    (transcript : List DebateMessage) (agent : Agent)
    (rebuttalRound : Option Nat) :
    (buildConversationForAgent topic transcript agent DebateStage.rebuttal
        rebuttalRound).length = 1 + transcript.length := by
  simp [buildConversationForAgent]
  omega

/-- Length of a Python-style `"".join`. -/
theorem concatAll_length (l : List String) :
    (concatAll l).length = (l.map String.length).sum := by
  induction l with
  | nil => rfl
  | cons s rest ih => simp [concatAll, String.length_append, ih]

/-- The accumulation loop never lets the running total exceed the budget. -/
theorem keptBlocksRev_le (mc : Nat) (msgs : List DebateMessage) :
    ∀ (total : Nat), total ≤ mc →
      total + ((keptBlocksRev mc msgs total).map String.length).sum ≤ mc := by
  induction msgs with
  | nil => intro total h; simpa [keptBlocksRev] using h
  | cons m rest ih =>
      intro total h
      by_cases hb : total + (formatBlock m).length > mc
      · simpa [keptBlocksRev, hb] using h
      · have := ih (total + (formatBlock m).length) (by omega)
        simp only [keptBlocksRev, if_neg hb, List.map_cons, List.sum_cons]
        omega

/-- The kept blocks form an initial segment of the (reversed) formatted
transcript: the loop stops at the first overflowing block. -/
theorem keptBlocksRev_append (mc : Nat) (msgs : List DebateMessage) :
    ∀ (total : Nat),
      ∃ rest, keptBlocksRev mc msgs total ++ rest = msgs.map formatBlock := by
  induction msgs with
  | nil => intro total; exact ⟨[], rfl⟩
  | cons m tl ih =>
      intro total
      by_cases hb : total + (formatBlock m).length > mc
      · exact ⟨(m :: tl).map formatBlock, by simp [keptBlocksRev, hb]⟩
      · obtain ⟨rest, hrest⟩ := ih (total + (formatBlock m).length)
        exact ⟨rest, by simp [keptBlocksRev, hb, hrest]⟩

/-- C5: the consensus transcript rendering never exceeds the character
budget (measured on the joined kept blocks, excluding the omission note);
the kept blocks are the formatted blocks of the chronologically most recent
messages, in chronological order (a suffix of the full formatted list); and
the omission note is prepended exactly when at least one message was
dropped. -/
theorem format_transcript_budget_spec (transcript : List DebateMessage)
    (maxChars : Nat) :
    ((concatAll (keptLines transcript maxChars)).length ≤ maxChars)
    ∧ (∃ dropped, dropped ++ keptLines transcript maxChars
        = transcript.map formatBlock)
    ∧ ((keptLines transcript maxChars).length ≤ transcript.length)
    ∧ (formatTranscript transcript maxChars
        = if (keptLines transcript maxChars).length < transcript.length
          then omissionNote ++ concatAll (keptLines transcript maxChars)
          else concatAll (keptLines transcript maxChars)) := by
  refine ⟨?_, ?_, ?_, rfl⟩
  · rw [concatAll_length, keptLines]
    have h := keptBlocksRev_le maxChars transcript.reverse 0 (Nat.zero_le _)
    simpa [List.map_reverse, List.sum_reverse] using h
  · obtain ⟨rest, hrest⟩ := keptBlocksRev_append maxChars transcript.reverse 0
    refine ⟨rest.reverse, ?_⟩
    have h2 := congrArg List.reverse hrest
    simpa [List.reverse_append, List.map_reverse] using h2
  · obtain ⟨rest, hrest⟩ := keptBlocksRev_append maxChars transcript.reverse 0
    have h3 := congrArg List.length hrest
    simp only [List.length_append, List.length_map, List.length_reverse] at h3
    simp only [keptLines, List.length_reverse]
    omega

/-- If no agent carries the policymaker role, the search loop returns none. -/
theorem findPolicymaker_eq_none (council : List Agent)
    (h : ∀ a ∈ council, a.roleId ≠ "policymaker_expert") :
    findPolicymaker council = none := by
  induction council with
  | nil => rfl
  | cons a rest ih =>
      simp only [findPolicymaker, if_neg (h a (List.mem_cons_self a rest))]
      exact ih fun b hb => h b (List.mem_cons_of_mem a hb)

/-- The search loop returns the first agent with the policymaker role: if
position i carries the role and no earlier position does, it returns the
agent at position i. -/
theorem findPolicymaker_first (council : List Agent) :
    ∀ (i : Nat) (hi : i < council.length),
      (council.get ⟨i, hi⟩).roleId = "policymaker_expert" →
      (∀ b ∈ council.take i, b.roleId ≠ "policymaker_expert") →
      findPolicymaker council = some (council.get ⟨i, hi⟩) := by
  induction council with
  | nil => intro i hi; simp at hi
  | cons a rest ih =>
      intro i hi hpm hfirst
      cases i with
      | zero =>
          simp only [List.get] at hpm ⊢
          simp [findPolicymaker, hpm]
      | succ i =>
          have ha : a.roleId ≠ "policymaker_expert" := by
            apply hfirst
            simp [List.take]
          simp only [findPolicymaker, if_neg ha]
          simp only [List.get] at hpm ⊢
          exact ih i (Nat.lt_of_succ_lt_succ hi) hpm
            fun b hb => hfirst b (by simp [List.take, hb])

/-- C6: if some agent carries the policy-synthesis role
("policymaker_expert"), the consensus strategy selects exactly the first
such agent, wherever it occurs; if none does, it selects the first agent in
council order; and the consensus result's notes identify the selected
synthesizer by its role identifier. -/
theorem consensus_summarizer_selection (topic : DebateTopic)
    (transcript : List DebateMessage) (council : List Agent)
    (h : council ≠ []) :
    ((∀ a ∈ council, a.roleId ≠ "policymaker_expert") →
        selectSummarizer council h = council.head h)
    ∧ (∀ (i : Nat) (hi : i < council.length),
        (council.get ⟨i, hi⟩).roleId = "policymaker_expert" →
        (∀ b ∈ council.take i, b.roleId ≠ "policymaker_expert") →
        selectSummarizer council h = council.get ⟨i, hi⟩)
    ∧ ((generateConsensus topic transcript council).1.notes
        = some ("summarizer=" ++ (selectSummarizer council h).roleId)) := by
  refine ⟨?_, ?_, ?_⟩
  · intro hnone
    simp [selectSummarizer, findPolicymaker_eq_none council hnone]
  · intro i hi hpm hfirst
    simp [selectSummarizer, findPolicymaker_first council i hi hpm hfirst]
  · cases council with
    | nil => exact absurd rfl h
    | cons c0 rest => rfl

/-- C6 witness: in a two-agent council whose second member is the
policymaker, that exact agent is selected and named in the notes. -/
theorem consensus_summarizer_selection_witness :
    (selectSummarizer [agentA, agentPM]
        (List.cons_ne_nil agentA [agentPM]) = agentPM)
    ∧ (generateConsensus topic0 [] [agentA, agentPM]).1.notes
        = some "summarizer=policymaker_expert" := by
  have H := consensus_summarizer_selection topic0 [] [agentA, agentPM]
    (List.cons_ne_nil agentA [agentPM])
  have hsel : selectSummarizer [agentA, agentPM]
      (List.cons_ne_nil agentA [agentPM]) = agentPM :=
    H.2.1 1 (by decide) rfl (by intro b hb; simp [List.take] at hb; subst hb; decide)
  refine ⟨hsel, ?_⟩
  rw [H.2.2, hsel]
  decide

/-- A rebuttal-round loop over an empty speaking order changes nothing,
however many rounds are configured. -/
theorem runRebuttalRounds_nil_order (topic : DebateTopic)
    (protocol : DebateProtocol) (council : List Agent)
    (h : protocol.rebuttalOrder council = []) :
    ∀ (n r : Nat) (t : List DebateMessage) (i c : Nat),
      runRebuttalRounds topic protocol council n r t i c = (t, i, c) := by
  intro n
  induction n with
  | zero => intro r t i c; rfl
  | succ n ih =>
      intro r t i c
      simp only [runRebuttalRounds, h, runStageTurns]
      exact ih (r + 1) t i c

/-- A full run over the empty council: the transcript stays empty, the
consensus is the sentinel, and no backend call is made. -/
theorem runDebate_empty_council (topic : DebateTopic) (R : Int) :
    runDebate (DebateOrchestrator.init (BasicDebateProtocol ⟨R⟩) none) topic []
      = (⟨⟨topic, []⟩,
          some ⟨"No council agents were available to form a consensus.",
            some "empty_council"⟩⟩, 0) := by
  have h1 := runRebuttalRounds_nil_order topic (BasicDebateProtocol ⟨R⟩) []
    rfl (BasicDebateProtocol ⟨R⟩).numRebuttalRounds.toNat 0 [] 0 0
  simp only [BasicDebateProtocol] at h1
  simp [runDebate, DebateOrchestrator.init, runStageTurns,
    policyLeadStrategy, generateConsensus, BasicDebateProtocol, h1]

/-- C7: with an empty council, generate_consensus returns the fixed sentinel
result ("no agents available", note "empty_council") with zero backend
calls; and a full debate run over an empty council performs zero agent
turns (empty transcript) and zero backend calls in total. -/
theorem empty_council_no_backend_calls (topic : DebateTopic)
    (transcript : List DebateMessage) (R : Int) :
    (generateConsensus topic transcript []
        = (⟨"No council agents were available to form a consensus.",
            some "empty_council"⟩, 0))
    ∧ ((runDebate (DebateOrchestrator.init (BasicDebateProtocol ⟨R⟩) none)
          topic []).1.transcript.messages = [])
    ∧ ((runDebate (DebateOrchestrator.init (BasicDebateProtocol ⟨R⟩) none)
          topic []).2 = 0) := by
  refine ⟨rfl, ?_, ?_⟩ <;> rw [runDebate_empty_council]

/-- C8 counterexample: with an empty council, run_debate's result has a
present (non-None) consensus component, contradicting the claim that it is
absent. -/
theorem empty_council_consensus_present_counterexample :
    (runDebate (DebateOrchestrator.init (BasicDebateProtocol ⟨1⟩) none) topic0
        []).1.consensus ≠ none := by
  rw [runDebate_empty_council]
  simp

/-- C8 amended: when the council is empty, the Debate Result's consensus
component is present, not absent — the constructor substitutes the default
Policy-Lead strategy, whose empty-council path returns the "no agents
available" sentinel; the consensus result is still created exactly once per
debate. -/
theorem empty_council_consensus_sentinel (topic : DebateTopic) (R : Int) :
    (runDebate (DebateOrchestrator.init (BasicDebateProtocol ⟨R⟩) none) topic
        []).1.consensus
      = some ⟨"No council agents were available to form a consensus.",
          some "empty_council"⟩ := by
  rw [runDebate_empty_council]

/-- The system-prompt injection either returns the conversation unchanged or
prepends the agent's system message. -/
theorem withSystemMessage_cases (a : Agent) (conv : List ChatMessage) :
    a.withSystemMessage conv = conv ∨
    a.withSystemMessage conv = ⟨"system", a.systemPrompt⟩ :: conv := by
  cases conv with
  | nil => right; rfl
  | cons first rest =>
      by_cases hc : first.role = "system" ∧ first.content = a.systemPrompt
      · left; simp [Agent.withSystemMessage, hc]
      · right; simp [Agent.withSystemMessage, hc]

/-- The injected conversation always starts with the agent's system
message. -/
theorem withSystemMessage_head (a : Agent) (conv : List ChatMessage) :
    (a.withSystemMessage conv).head? = some ⟨"system", a.systemPrompt⟩ := by
  cases conv with
  | nil => rfl
  | cons first rest =>
      by_cases hc : first.role = "system" ∧ first.content = a.systemPrompt
      · obtain ⟨h1, h2⟩ := hc
        cases first
        simp_all [Agent.withSystemMessage]
      · simp [Agent.withSystemMessage, hc]

/-- C9: respond sends the backend the conversation with the agent's system
prompt injected; the injected list always begins with the system message
carrying the role prompt; a conversation already starting with a
byte-identical system message is passed through unchanged, otherwise the
system message is prepended; and the injection is idempotent. -/
theorem respond_system_message_spec (a : Agent) (conv : List ChatMessage) :
    ((a.withSystemMessage conv).head? = some ⟨"system", a.systemPrompt⟩)
    ∧ (a.withSystemMessage (a.withSystemMessage conv)
        = a.withSystemMessage conv)
    ∧ (a.respond conv = a.llm (a.withSystemMessage conv))
    ∧ ∀ (first : ChatMessage) (rest : List ChatMessage), conv = first :: rest →
        ((first.role = "system" ∧ first.content = a.systemPrompt) →
            a.withSystemMessage conv = conv)
        ∧ (¬ (first.role = "system" ∧ first.content = a.systemPrompt) →
            a.withSystemMessage conv = ⟨"system", a.systemPrompt⟩ :: conv) := by
  refine ⟨withSystemMessage_head a conv, ?_, rfl, ?_⟩
  · rcases withSystemMessage_cases a conv with h | h
    · rw [h]; exact h
    · rw [h]
      simp [Agent.withSystemMessage]
  · intro first rest hconv
    subst hconv
    constructor
    · intro hc
      simp [Agent.withSystemMessage, hc]
    · intro hc
      simp [Agent.withSystemMessage, hc]

/-- C9 witness: a conversation already opening with the agent's exact system
message is returned unchanged — no duplicate is inserted. -/
theorem respond_system_message_spec_witness :
    agentA.withSystemMessage [⟨"system", "PA"⟩] = [⟨"system", "PA"⟩] := by
  have H := (respond_system_message_spec agentA [⟨"system", "PA"⟩]).2.2.2
    ⟨"system", "PA"⟩ [] rfl
  exact H.1 ⟨rfl, rfl⟩

/-- C10: for every protocol, topic and council — the empty council included
— a run of an orchestrator built by the constructor returns a Debate Result
whose consensus component is present, even when the constructor was given
no consensus strategy: the default Policy-Lead strategy is substituted at
construction and every strategy invocation yields a ConsensusResult. -/
theorem run_debate_consensus_isSome (protocol : DebateProtocol)
    (s : Option ConsensusStrategy) (topic : DebateTopic)
    (council : List Agent) :
    ((runDebate (DebateOrchestrator.init protocol s) topic
        council).1.consensus).isSome = true := by
  simp [runDebate, DebateOrchestrator.init]

end Council
